import Mathlib

/-!
Shallow embedding of `src/scripts/backfill_stock_prices.py`: a batch job that
fetches daily OHLCV stock records from the Alpha Vantage HTTP API and upserts
them into a Snowflake table `DBT_DEMO.RAW.STOCK_PRICES`.

The embedding models:
* the JSON values produced by `resp.json()` (rational numbers stand for the
  exact decimal values appearing in the provider's payloads; the binary
  rounding of Python floats is immaterial at the precision exercised here);
* the Python exceptions the script can raise (`json.JSONDecodeError`,
  `ValueError`, `TypeError`, `KeyError`, `AttributeError`, the
  `NameError`/`UnboundLocalError` family) as an `Except` error type;
* `fetch_history_for_symbol` as a pure function from an HTTP response to a
  log transcript plus either a record list or a raised exception;
* `insert_history_into_snowflake` as a pure state transformer on a table,
  parameterised by an environment saying which database calls fail, so that
  transaction/commit/resource-release behaviour is observable.
-/

namespace Backfill

/-! ## Dates

`datetime.strptime(date_str, "%Y-%m-%d").date()`: CPython's `_strptime`
compiles the format to the regex `(\d\d\d\d)-(1[0-2]|0[1-9]|[1-9])-`
`(3[01]|[12]\d|0[1-9]|[1-9])`, requires the regex to consume the whole
string, and then `datetime.date` validates the day against the month length
(Gregorian, with leap years) and requires year ≥ 1.  `parseDate` below
reproduces exactly that acceptance set. -/

structure Date where
  year : Nat
  month : Nat
  day : Nat
deriving DecidableEq, Repr

/-- Gregorian leap-year rule used by `datetime.date`. -/
def isLeap (y : Nat) : Bool := y % 4 == 0 && (y % 100 != 0 || y % 400 == 0)

/-- Number of days in month `m` of year `y` (as validated by `datetime.date`). -/
def daysInMonth (y m : Nat) : Nat :=
  if m = 2 then (if isLeap y then 29 else 28)
  else if m = 4 ∨ m = 6 ∨ m = 9 ∨ m = 11 then 30
  else 31

/-- Value of a digit string (most significant digit first). -/
def digitsToNat (cs : List Char) : Nat :=
  cs.foldl (fun n c => 10 * n + (c.toNat - '0'.toNat)) 0

/-- Split a character list at every occurrence of `sep`
(the semantics of `String.splitOn` for a one-character separator). -/
def splitOnChar (sep : Char) : List Char → List (List Char)
  | [] => [[]]
  | x :: xs =>
    let r := splitOnChar sep xs
    if x = sep then [] :: r
    else
      match r with
      | [] => [[x]]
      | y :: ys => (x :: y) :: ys

/-- Model of `datetime.strptime(s, "%Y-%m-%d").date()`: `some` on the strings strptime
accepts, `none` where CPython raises `ValueError` (wrong shape, month/day out
of regex range, day out of range for the month, year 0000). -/
def parseDate (s : String) : Option Date :=
  match splitOnChar '-' s.toList with
  | [yc, mc, dc] =>
    if yc.length = 4 ∧ yc.all Char.isDigit
        ∧ 1 ≤ mc.length ∧ mc.length ≤ 2 ∧ mc.all Char.isDigit
        ∧ 1 ≤ dc.length ∧ dc.length ≤ 2 ∧ dc.all Char.isDigit then
      let y := digitsToNat yc
      let m := digitsToNat mc
      let d := digitsToNat dc
      if 1 ≤ y ∧ 1 ≤ m ∧ m ≤ 12 ∧ 1 ≤ d ∧ d ≤ daysInMonth y m then
        some ⟨y, m, d⟩
      else none
    else none
  | _ => none

/-- Chronological order on dates (`datetime.date` comparison is lexicographic
on (year, month, day)). -/
def dateLe (a b : Date) : Prop :=
  a.year < b.year
    ∨ (a.year = b.year
        ∧ (a.month < b.month ∨ (a.month = b.month ∧ a.day ≤ b.day)))

instance : DecidableRel dateLe := fun a b => by unfold dateLe; infer_instance

/-! ## JSON values and Python coercion semantics -/

/-- A parsed JSON document, as returned by `resp.json()`.  Object entries keep
payload order (Python dicts preserve insertion order); keys of a parsed JSON
object are distinct. -/
inductive Json where
  | null
  | bool (b : Bool)
  | num (q : ℚ)
  | str (s : String)
  | arr (xs : List Json)
  | obj (entries : List (String × Json))

/-- The Python exceptions the script can raise. -/
inductive PyErr where
  /-- raised by `resp.json()` on a body that is not valid JSON. -/
  | jsonDecodeError
  /-- raised by `strptime` / `float()` / `int()` on an ill-formed string. -/
  | valueError
  /-- an operation applied to a value of the wrong type. -/
  | typeError
  /-- subscripting a dict with an absent key. -/
  | keyError
  /-- attribute access (`.keys()`, `.items()`) on a non-dict. -/
  | attributeError
  /-- reference to a local variable that was never assigned
  (`UnboundLocalError`, a subclass of `NameError`). -/
  | nameError
  /-- a failure raised by the database driver. -/
  | dbError
deriving DecidableEq, Repr

/-- First binding of key `k` in a JSON-object entry list. -/
def jsonGet (es : List (String × Json)) (k : String) : Option Json :=
  (es.find? (fun e => e.fst == k)).map (fun e => e.snd)

/-- Python `k in data` for a string `k`: key test on dicts, element test on
lists, substring test on strings, `TypeError` on numbers/booleans/None. -/
def pyContains (j : Json) (k : String) : Except PyErr Bool :=
  match j with
  | .obj es => .ok (es.any (fun e => e.fst == k))
  | .arr xs =>
    .ok (xs.any (fun x => match x with | .str s => s == k | _ => false))
  | .str s => .ok (decide (k.toList <:+: s.toList))
  | _ => .error .typeError

/-- Python `j[k]` for a string key `k`: dict lookup (raising `KeyError` when
absent), `TypeError` on every other type. -/
def pyGetItem (j : Json) (k : String) : Except PyErr Json :=
  match j with
  | .obj es =>
    match jsonGet es k with
    | some v => .ok v
    | none => .error .keyError
  | _ => .error .typeError

/-- Python `j.items()`: the entry list of a dict, `AttributeError` otherwise. -/
def pyItems (j : Json) : Except PyErr (List (String × Json)) :=
  match j with
  | .obj es => .ok es
  | _ => .error .attributeError

/-- Python `j.keys()` (as consumed by `list(data.keys())`): the key list of a
dict, `AttributeError` otherwise. -/
def pyKeys (j : Json) : Except PyErr (List String) :=
  match j with
  | .obj es => .ok (es.map (fun e => e.fst))
  | _ => .error .attributeError

/-- Python truthiness of a JSON value (used by the `or` chain on line 40). -/
def jsonTruthy (j : Json) : Bool :=
  match j with
  | .null => false
  | .bool b => b
  | .num q => q != 0
  | .str s => s != ""
  | .arr xs => !xs.isEmpty
  | .obj es => !es.isEmpty

/-- Parse an unsigned decimal literal `digits[.digits]` / `digits.` / `.digits`
to its exact rational value
(`intPart.fracPart = (intPart·10^k + fracPart) / 10^k`). -/
def parseUnsignedRat (cs : List Char) : Option ℚ :=
  let intPart := cs.takeWhile Char.isDigit
  let rest := cs.dropWhile Char.isDigit
  match rest with
  | [] => if intPart.isEmpty then none else some (digitsToNat intPart : ℚ)
  | '.' :: frac =>
    if frac.all Char.isDigit ∧ (intPart ≠ [] ∨ frac ≠ []) then
      some (mkRat (digitsToNat intPart * 10 ^ frac.length + digitsToNat frac)
        (10 ^ frac.length))
    else none
  | _ => none

/-- Python `float(s)` on the decimal forms the provider emits
(`[sign] digits [. digits]`), as an exact rational; `none` where `float()`
raises `ValueError`.  (Exponent, `inf`/`nan`, underscore and padding forms,
which the provider never emits, are out of model.) -/
def parseFloatStr (s : String) : Option ℚ :=
  match s.toList with
  | '+' :: rest => parseUnsignedRat rest
  | '-' :: rest => (parseUnsignedRat rest).map Neg.neg
  | cs => parseUnsignedRat cs

/-- Python `int(s)`: `[sign] digits`; `none` where `int()` raises
`ValueError` (this includes strings like `"10.5"`). -/
def parseIntStr (s : String) : Option Int :=
  match s.toList with
  | '+' :: rest =>
    if !rest.isEmpty && rest.all Char.isDigit then some (digitsToNat rest) else none
  | '-' :: rest =>
    if !rest.isEmpty && rest.all Char.isDigit then
      some (-(digitsToNat rest : Int))
    else none
  | cs => if !cs.isEmpty && cs.all Char.isDigit then some (digitsToNat cs) else none

/-- Python `float(x)` on a JSON value: numbers pass through, booleans become
0/1, strings are parsed (`ValueError` on failure), anything else raises
`TypeError`. -/
def pyFloat (j : Json) : Except PyErr ℚ :=
  match j with
  | .num q => .ok q
  | .bool b => .ok (if b then 1 else 0)
  | .str s =>
    match parseFloatStr s with
    | some q => .ok q
    | none => .error .valueError
  | _ => .error .typeError

/-- Truncation toward zero, as `int()` applied to a Python number. -/
def ratTrunc (q : ℚ) : Int := q.num.tdiv (q.den : Int)

/-- Python `int(x)` on a JSON value. -/
def pyInt (j : Json) : Except PyErr Int :=
  match j with
  | .num q => .ok (ratTrunc q)
  | .bool b => .ok (if b then 1 else 0)
  | .str s =>
    match parseIntStr s with
    | some n => .ok n
    | none => .error .valueError
  | _ => .error .typeError

/-! ## The fetcher -/

/-- One element of the tuple list built by `fetch_history_for_symbol`
(`(as_of_date, symbol, o, h, l, c, v)` in the source). -/
structure PriceRec where
  as_of_date : Date
  symbol : String
  o : ℚ
  h : ℚ
  l : ℚ
  c : ℚ
  v : Int
deriving DecidableEq, Repr

/-- Order used by `records.sort(key=lambda r: r[0])`. -/
def recLe (a b : PriceRec) : Prop := dateLe a.as_of_date b.as_of_date

instance : DecidableRel recLe := fun a b => by unfold recLe; infer_instance

instance : IsTotal PriceRec recLe :=
  ⟨by intro a b; unfold recLe dateLe; omega⟩

instance : IsTrans PriceRec recLe :=
  ⟨by intro a b c; unfold recLe dateLe; omega⟩

/-- Model of `records.sort(key=lambda r: r[0])`: a stable sort by date. -/
def sortRecords (rs : List PriceRec) : List PriceRec :=
  List.insertionSort recLe rs

/-- The provider's HTTP response as the script observes it: a status code and
either a parsed JSON body or `none` when the body is not valid JSON (so that
`resp.json()` raises). -/
structure Response where
  status : Nat
  body : Option Json

/-- Model of `resp.ok` in `requests`: true exactly when the status code is below 400. -/
def respOk (r : Response) : Bool := r.status < 400

/-- The warnings the script prints, abstracted from their f-string text. -/
inductive LogMsg where
  /-- line 29: 429 from Alpha Vantage. -/
  | warn429 (symbol : String)
  /-- line 33: non-success HTTP status. -/
  | warnHttp (symbol : String) (status : Nat)
  /-- line 39: unexpected response, listing the top-level keys. -/
  | warnUnexpectedKeys (symbol : String) (keys : List String)
  /-- line 40: `data.get('Information') or data.get('Note') or data`. -/
  | warnMessage (msg : Json)

/-- The message JSON printed on line 40. -/
def unexpectedMessage (data : Json) (es : List (String × Json)) : Json :=
  match jsonGet es "Information" with
  | some j =>
    if jsonTruthy j then j
    else match jsonGet es "Note" with
      | some j2 => if jsonTruthy j2 then j2 else data
      | none => data
  | none =>
    match jsonGet es "Note" with
    | some j2 => if jsonTruthy j2 then j2 else data
    | none => data

/-- Lines 46–65: one iteration of the `for date_str, vals in ts.items()` loop
(parse the date, then coerce open, high, low, close, volume in source order;
the first failure raises). -/
def parseEntry (symbol : String) (e : String × Json) : Except PyErr PriceRec := do
  let d ← match parseDate e.fst with
    | some d => Except.ok d
    | none => Except.error PyErr.valueError
  let ov ← pyGetItem e.snd "1. open"
  let o ← pyFloat ov
  let hv ← pyGetItem e.snd "2. high"
  let h ← pyFloat hv
  let lv ← pyGetItem e.snd "3. low"
  let l ← pyFloat lv
  let cv ← pyGetItem e.snd "4. close"
  let c ← pyFloat cv
  let vv ← pyGetItem e.snd "5. volume"
  let v ← pyInt vv
  pure ⟨d, symbol, o, h, l, c, v⟩

/-- The whole record-building loop: in payload order, first exception wins. -/
def parseEntries (symbol : String) (es : List (String × Json)) :
    Except PyErr (List PriceRec) :=
  es.mapM (parseEntry symbol)

/-- Model of `fetch_history_for_symbol` (lines 13–69), as a function of the HTTP
response: returns the printed warnings together with either the record list
the Python function returns or the exception it raises. -/
def fetch_history_for_symbol (resp : Response) (symbol : String) :
    List LogMsg × Except PyErr (List PriceRec) :=
  if resp.status = 429 then ([.warn429 symbol], .ok [])
  else if !respOk resp then ([.warnHttp symbol resp.status], .ok [])
  else
    match resp.body with
    | none => ([], .error .jsonDecodeError)
    | some data =>
      match pyContains data "Time Series (Daily)" with
      | .error e => ([], .error e)
      | .ok true =>
        match pyGetItem data "Time Series (Daily)" with
        | .error e => ([], .error e)
        | .ok ts =>
          match pyItems ts with
          | .error e => ([], .error e)
          | .ok es =>
            match parseEntries symbol es with
            | .error e => ([], .error e)
            | .ok recs => ([], .ok (sortRecords recs))
      | .ok false =>
        match data with
        | .obj es =>
          ([.warnUnexpectedKeys symbol (es.map (fun e => e.fst)),
            .warnMessage (unexpectedMessage data es)], .ok [])
        | _ => ([], .error .attributeError)

/-! ## The warehouse writer

`insert_history_into_snowflake` (lines 75–152).  The table
`DBT_DEMO.RAW.STOCK_PRICES` is modelled as a list of rows (a row is the
`PriceRec` written by the insert; `FETCHED_AT` is filled in by the table's
column default, not by the script, and is therefore not part of the written
record).  The database/network failures the driver can raise are modelled by
an environment `DbEnv` saying which call fails; the function is then a pure
map from (environment, records, table) to a `RunResult` that records the
statements executed, the final committed table, whether `ctx.commit()` ran,
the exception propagated to the caller, and which resources were released. -/

/-- The table: a bag of rows, one per inserted record. -/
abbrev Table := List PriceRec

/-- The `(AS_OF_DATE, SYMBOL)` key of a row, as used by the `DELETE`
statement's `WHERE` clause and the table's declared primary key. -/
def keyOf (r : PriceRec) : Date × String := (r.as_of_date, r.symbol)

/-- Effect of `DELETE FROM ... WHERE AS_OF_DATE = %s AND SYMBOL = %s`. -/
def deleteKey (t : Table) (k : Date × String) : Table :=
  t.filter (fun row => !(keyOf row == k))

/-- One iteration of the loop on lines 144–147: delete the record's key, then
insert the record. -/
def upsertOne (t : Table) (r : PriceRec) : Table :=
  deleteKey t (keyOf r) ++ [r]

/-- Effect on the table of the whole per-record loop, in list order. -/
def upsertRecords (recs : List PriceRec) (t : Table) : Table :=
  recs.foldl upsertOne t

/-- The database statements the writer issues (cursor/connection release is
tracked separately by flags in `RunResult`). -/
inductive DbOp where
  | connect
  | createSchema
  | createTable
  | deleteRow (k : Date × String)
  | insertRow (r : PriceRec)
  | commit

/-- Which database calls fail in a given run: `snowflake.connector.connect`,
`ctx.cursor()`, the i-th `cs.execute` (0-based over the whole call), and
`ctx.commit()`.  The all-false environment is a run with no failures. -/
structure DbEnv where
  connectFails : Bool
  cursorFails : Bool
  execFails : Nat → Bool
  commitFails : Bool

/-- A failure-free database environment. -/
def envOk : DbEnv :=
  { connectFails := false, cursorFails := false,
    execFails := fun _ => false, commitFails := false }

/-- Observable outcome of one call to the writer. -/
structure RunResult where
  /-- the statements successfully executed, in order. -/
  trace : List DbOp
  /-- the committed table state visible after the call (uncommitted work is
  rolled back when the connection is closed without a commit). -/
  table : Table
  /-- whether `ctx.commit()` ran. -/
  committed : Bool
  /-- the exception propagated to the caller, if any. -/
  err : Option PyErr
  /-- whether `snowflake.connector.connect` returned a connection. -/
  connOpened : Bool
  /-- whether `cs.close()` ran. -/
  cursorClosed : Bool
  /-- whether `ctx.close()` ran. -/
  connClosed : Bool

/-- The `cs.execute` calls issued before the loop and by the loop, in program
order: `CREATE SCHEMA IF NOT EXISTS`, `CREATE TABLE IF NOT EXISTS`, then
delete/insert per record. -/
def execOps (records : List PriceRec) : List DbOp :=
  DbOp.createSchema :: DbOp.createTable ::
    records.flatMap (fun r => [DbOp.deleteRow (keyOf r), DbOp.insertRow r])

/-- Model of `insert_history_into_snowflake` (lines 75–152).

* `if not records: return` (lines 80–81): nothing at all happens.
* `snowflake.connector.connect` (line 91) runs before the `try`, so its
  failure propagates with nothing to release.
* `cs = ctx.cursor()` (line 101) runs inside the `try`; if it raises, the
  `finally` block evaluates `cs.close()` with the local `cs` never assigned,
  which raises `UnboundLocalError` (a `NameError`), so `ctx.close()` is
  never reached: the connection stays open.
* otherwise the execute sequence runs until its first failing call; an
  execute failure leaves the transaction uncommitted (the table keeps its
  prior committed state) and propagates after the `finally` block closes the
  cursor and the connection.
* if every execute succeeds, `ctx.commit()` runs once, after the whole loop;
  only then does the new table state become visible. -/
def insert_history_into_snowflake (env : DbEnv) (records : List PriceRec)
    (table : Table) : RunResult :=
  if records.isEmpty then
    { trace := [], table := table, committed := false, err := none,
      connOpened := false, cursorClosed := false, connClosed := false }
  else if env.connectFails then
    { trace := [], table := table, committed := false, err := some .dbError,
      connOpened := false, cursorClosed := false, connClosed := false }
  else if env.cursorFails then
    { trace := [DbOp.connect], table := table, committed := false,
      err := some .nameError,
      connOpened := true, cursorClosed := false, connClosed := false }
  else
    let ops := execOps records
    match (List.range ops.length).find? env.execFails with
    | some i =>
      { trace := DbOp.connect :: ops.take i, table := table,
        committed := false, err := some .dbError,
        connOpened := true, cursorClosed := true, connClosed := true }
    | none =>
      if env.commitFails then
        { trace := DbOp.connect :: ops, table := table, committed := false,
          err := some .dbError,
          connOpened := true, cursorClosed := true, connClosed := true }
      else
        { trace := DbOp.connect :: (ops ++ [DbOp.commit]),
          table := upsertRecords records table, committed := true,
          err := none,
          connOpened := true, cursorClosed := true, connClosed := true }

/-! ## Derived notions used by the statements -/

/-- The rows of `t` whose `(AS_OF_DATE, SYMBOL)` key is `k`. -/
def filterKey (t : Table) (k : Date × String) : Table :=
  t.filter (fun row => keyOf row == k)

/-- The last record in `recs` whose key is `k` — the values the loop writes
last for that key. -/
def lastWrite (recs : List PriceRec) (k : Date × String) : Option PriceRec :=
  (recs.filter (fun r => keyOf r == k)).getLast?

/-- The table's uniqueness invariant: at most one row per
`(AS_OF_DATE, SYMBOL)` pair. -/
def AtMostOnePerKey (t : Table) : Prop :=
  ∀ k : Date × String, (filterKey t k).length ≤ 1

/-- The single-entry payload of the spec's end-to-end scenario. -/
def scenarioPayload : Json :=
  Json.obj [("Time Series (Daily)",
    Json.obj [("2024-01-02",
      Json.obj [("1. open", Json.str "10"), ("2. high", Json.str "12"),
                ("3. low", Json.str "9"), ("4. close", Json.str "11"),
                ("5. volume", Json.str "1000")])])]

/-- The record the end-to-end scenario expects:
`(2024-01-02, "ABC", 10.0, 12.0, 9.0, 11.0, 1000)`. -/
def scenarioRec : PriceRec := ⟨⟨2024, 1, 2⟩, "ABC", 10, 12, 9, 11, 1000⟩

/-- A database environment where `ctx.cursor()` raises and everything else
succeeds. -/
def envCursorFail : DbEnv :=
  { connectFails := false, cursorFails := true,
    execFails := fun _ => false, commitFails := false }


/-- A two-entry payload whose dates arrive in descending order (used to
witness the sorting property). -/
def unorderedPayload : Json :=
  Json.obj [("Time Series (Daily)",
    Json.obj [("2024-01-03",
      Json.obj [("1. open", Json.str "1"), ("2. high", Json.str "2"),
                ("3. low", Json.str "0.5"), ("4. close", Json.str "1.5"),
                ("5. volume", Json.str "10")]),
      ("2024-01-02",
      Json.obj [("1. open", Json.str "10"), ("2. high", Json.str "12"),
                ("3. low", Json.str "9"), ("4. close", Json.str "11"),
                ("5. volume", Json.str "1000")])])]

/-! ## Facts about the upsert loop -/

theorem filterKey_upsertOne_self (t : Table) (r : PriceRec) :
    filterKey (upsertOne t r) (keyOf r) = [r] := by
  unfold filterKey upsertOne deleteKey
  simp [List.filter_append, List.filter_filter]

theorem filterKey_upsertOne_ne (t : Table) (r : PriceRec) (k : Date × String)
    (hk : k ≠ keyOf r) : filterKey (upsertOne t r) k = filterKey t k := by
  unfold filterKey upsertOne deleteKey
  rw [List.filter_append, List.filter_filter]
  have h1 : (fun a => (keyOf a == k) && !(keyOf a == keyOf r))
      = (fun a => keyOf a == k) := by
    funext a
    by_cases h : keyOf a = k
    · simp [h, hk]
    · simp [h]
  rw [h1]
  simp [Ne.symm hk]

theorem filterKey_upsertRecords_notMem (recs : List PriceRec) (t : Table)
    (k : Date × String) (hk : k ∉ recs.map keyOf) :
    filterKey (upsertRecords recs t) k = filterKey t k := by
  induction recs generalizing t with
  | nil => rfl
  | cons r rs ih =>
    simp only [List.map_cons, List.mem_cons, not_or] at hk
    have h1 : upsertRecords (r :: rs) t = upsertRecords rs (upsertOne t r) := rfl
    rw [h1, ih _ hk.2, filterKey_upsertOne_ne _ _ _ hk.1]

theorem lastWrite_isSome (recs : List PriceRec) (k : Date × String)
    (hk : k ∈ recs.map keyOf) : (lastWrite recs k).isSome = true := by
  unfold lastWrite
  rw [List.getLast?_isSome]
  obtain ⟨r, hr, hkr⟩ := List.mem_map.mp hk
  exact List.ne_nil_of_mem (List.mem_filter.mpr ⟨hr, by simp [hkr]⟩)

theorem filterKey_upsertRecords_mem (recs : List PriceRec) (t : Table)
    (k : Date × String) (hk : k ∈ recs.map keyOf) :
    filterKey (upsertRecords recs t) k = (lastWrite recs k).toList := by
  induction recs generalizing t with
  | nil => simp at hk
  | cons r rs ih =>
    have h1 : upsertRecords (r :: rs) t = upsertRecords rs (upsertOne t r) := rfl
    by_cases hmem : k ∈ rs.map keyOf
    · rw [h1, ih _ hmem]
      congr 1
      unfold lastWrite
      have hne : rs.filter (fun a => keyOf a == k) ≠ [] := by
        obtain ⟨a, ha, hka⟩ := List.mem_map.mp hmem
        exact List.ne_nil_of_mem (List.mem_filter.mpr ⟨ha, by simp [hka]⟩)
      rw [List.filter_cons]
      by_cases hr : keyOf r == k
      · simp only [hr, if_pos]
        cases hfil : rs.filter (fun a => keyOf a == k) with
        | nil => exact absurd hfil hne
        | cons b bs => simp
      · simp [hr]
    · have hr : keyOf r = k := by
        rcases (by simpa using hk : k = keyOf r ∨ ∃ a ∈ rs, keyOf a = k) with h | h
        · exact h.symm
        · obtain ⟨a, ha, hka⟩ := h
          exact absurd (List.mem_map.mpr ⟨a, ha, hka⟩) hmem
      rw [h1, filterKey_upsertRecords_notMem _ _ _ hmem, ← hr,
        filterKey_upsertOne_self]
      unfold lastWrite
      have hfil : rs.filter (fun a => keyOf a == k) = [] := by
        rw [List.filter_eq_nil_iff]
        intro a ha
        simp only [beq_iff_eq]
        intro hak
        exact hmem (List.mem_map.mpr ⟨a, ha, hak⟩)
      rw [List.filter_cons]
      simp [hr, hfil]


/-! ## Claim theorems: the upsert algebra -/

/-- C3: upsert is idempotent: for every record list and every starting table
state, applying the upsert loop twice with the same records leaves exactly
one row for each (date, symbol) key appearing in the records, and that row's
field values are the ones the second application writes for that key (the
last record in list order with that key). -/
theorem upsert_twice_idempotent (recs : List PriceRec) (t : Table)
    (k : Date × String) (hk : k ∈ recs.map keyOf) :
    filterKey (upsertRecords recs (upsertRecords recs t)) k
        = (lastWrite recs k).toList
      ∧ (filterKey (upsertRecords recs (upsertRecords recs t)) k).length = 1 := by
  have h := filterKey_upsertRecords_mem recs (upsertRecords recs t) k hk
  refine ⟨h, ?_⟩
  rw [h]
  obtain ⟨r, hr⟩ := Option.isSome_iff_exists.mp (lastWrite_isSome recs k hk)
  simp [hr]

/-- Witness for C3 at a concrete record list, table and key. -/
theorem upsert_twice_idempotent_witness :
    filterKey (upsertRecords [scenarioRec] (upsertRecords [scenarioRec] []))
        (⟨2024, 1, 2⟩, "ABC") = (lastWrite [scenarioRec] (⟨2024, 1, 2⟩, "ABC")).toList
      ∧ (filterKey (upsertRecords [scenarioRec] (upsertRecords [scenarioRec] []))
        (⟨2024, 1, 2⟩, "ABC")).length = 1 :=
  upsert_twice_idempotent [scenarioRec] [] (⟨2024, 1, 2⟩, "ABC") (by decide)

/-- C4: the uniqueness invariant — at most one row per (as_of_date, symbol)
pair — is preserved by the upsert loop on every starting table satisfying
it, for every record list; the embedding has no uniqueness-constraint
failure path, only the delete-before-insert of each record's key. -/
theorem upsert_preserves_uniqueness (recs : List PriceRec) (t : Table)
    (ht : AtMostOnePerKey t) : AtMostOnePerKey (upsertRecords recs t) := by
  intro k
  by_cases hk : k ∈ recs.map keyOf
  · rw [filterKey_upsertRecords_mem recs t k hk]
    cases lastWrite recs k <;> simp
  · rw [filterKey_upsertRecords_notMem recs t k hk]
    exact ht k

/-- Witness for C4 at a concrete record list and the empty table. -/
theorem upsert_preserves_uniqueness_witness :
    AtMostOnePerKey (upsertRecords [scenarioRec] []) :=
  upsert_preserves_uniqueness [scenarioRec] []
    (by intro k; simp [AtMostOnePerKey, filterKey])

/-- C7: records for two different symbols on the same date coexist: after
upserting both, each is the unique row for its own (date, symbol) key, so
neither write removed the other (the delete is keyed on the pair, not the
date alone). -/
theorem two_symbols_coexist (r1 r2 : PriceRec) (t : Table)
    (hdate : r1.as_of_date = r2.as_of_date) (hsym : r1.symbol ≠ r2.symbol) :
    r1 ∈ upsertRecords [r1, r2] t ∧ r2 ∈ upsertRecords [r1, r2] t
      ∧ filterKey (upsertRecords [r1, r2] t) (keyOf r1) = [r1]
      ∧ filterKey (upsertRecords [r1, r2] t) (keyOf r2) = [r2] := by
  have hkey : keyOf r1 ≠ keyOf r2 := by
    unfold keyOf
    intro h
    exact hsym (congrArg Prod.snd h)
  have e1 : upsertRecords [r1, r2] t = upsertOne (upsertOne t r1) r2 := rfl
  have h2 : filterKey (upsertRecords [r1, r2] t) (keyOf r2) = [r2] := by
    rw [e1]
    exact filterKey_upsertOne_self _ _
  have h1 : filterKey (upsertRecords [r1, r2] t) (keyOf r1) = [r1] := by
    rw [e1, filterKey_upsertOne_ne _ _ _ hkey, filterKey_upsertOne_self]
  have m1 : r1 ∈ filterKey (upsertRecords [r1, r2] t) (keyOf r1) := by
    rw [h1]
    exact List.mem_singleton_self r1
  have m2 : r2 ∈ filterKey (upsertRecords [r1, r2] t) (keyOf r2) := by
    rw [h2]
    exact List.mem_singleton_self r2
  exact ⟨List.mem_of_mem_filter m1, List.mem_of_mem_filter m2, h1, h2⟩

/-- Witness for C7: two concrete records sharing 2024-01-02 with symbols
"ABC" and "XYZ". -/
theorem two_symbols_coexist_witness :
    scenarioRec ∈ upsertRecords [scenarioRec, ⟨⟨2024, 1, 2⟩, "XYZ", 1, 2, 1, 2, 5⟩] []
      ∧ (⟨⟨2024, 1, 2⟩, "XYZ", 1, 2, 1, 2, 5⟩ : PriceRec)
          ∈ upsertRecords [scenarioRec, ⟨⟨2024, 1, 2⟩, "XYZ", 1, 2, 1, 2, 5⟩] []
      ∧ filterKey (upsertRecords [scenarioRec, ⟨⟨2024, 1, 2⟩, "XYZ", 1, 2, 1, 2, 5⟩] [])
          (keyOf scenarioRec) = [scenarioRec]
      ∧ filterKey (upsertRecords [scenarioRec, ⟨⟨2024, 1, 2⟩, "XYZ", 1, 2, 1, 2, 5⟩] [])
          (keyOf ⟨⟨2024, 1, 2⟩, "XYZ", 1, 2, 1, 2, 5⟩) = [⟨⟨2024, 1, 2⟩, "XYZ", 1, 2, 1, 2, 5⟩] :=
  two_symbols_coexist scenarioRec ⟨⟨2024, 1, 2⟩, "XYZ", 1, 2, 1, 2, 5⟩ []
    (by rfl) (by decide)

/-- C10: within a single upsert call, when several records share the same
(date, symbol) key the last occurrence in list order wins: after one
application of the loop there is exactly one row for the key and it carries
the values of the last record with that key. -/
theorem upsert_last_occurrence_wins (recs : List PriceRec) (t : Table)
    (k : Date × String) (hk : k ∈ recs.map keyOf) :
    filterKey (upsertRecords recs t) k = (lastWrite recs k).toList
      ∧ (filterKey (upsertRecords recs t) k).length = 1 := by
  have h := filterKey_upsertRecords_mem recs t k hk
  refine ⟨h, ?_⟩
  rw [h]
  obtain ⟨r, hr⟩ := Option.isSome_iff_exists.mp (lastWrite_isSome recs k hk)
  simp [hr]

/-- Witness for C10: a list with two records for the same key; the stored
row is the second one. -/
theorem upsert_last_occurrence_wins_witness :
    filterKey (upsertRecords [⟨⟨2024, 1, 2⟩, "ABC", 1, 1, 1, 1, 1⟩, scenarioRec] [])
        (⟨2024, 1, 2⟩, "ABC")
      = (lastWrite [⟨⟨2024, 1, 2⟩, "ABC", 1, 1, 1, 1, 1⟩, scenarioRec]
          (⟨2024, 1, 2⟩, "ABC")).toList
      ∧ (filterKey (upsertRecords [⟨⟨2024, 1, 2⟩, "ABC", 1, 1, 1, 1, 1⟩, scenarioRec] [])
          (⟨2024, 1, 2⟩, "ABC")).length = 1 :=
  upsert_last_occurrence_wins [⟨⟨2024, 1, 2⟩, "ABC", 1, 1, 1, 1, 1⟩, scenarioRec] []
    (⟨2024, 1, 2⟩, "ABC") (by decide)


/-! ## Claim theorems: the fetcher -/

/-- Shape of every fetcher result: empty list, raised exception, or a sorted
record list. -/
theorem fetch_result_shape (resp : Response) (symbol : String) :
    (fetch_history_for_symbol resp symbol).2 = .ok []
      ∨ (∃ e, (fetch_history_for_symbol resp symbol).2 = .error e)
      ∨ (∃ rs, (fetch_history_for_symbol resp symbol).2 = .ok (sortRecords rs)) := by
  unfold fetch_history_for_symbol
  repeat' split
  all_goals simp

/-- C2: whenever the fetcher returns a record list (in particular on every
valid payload containing the expected time-series key), that list is sorted
ascending by `as_of_date`, regardless of the ordering of the payload's date
entries. -/
theorem fetch_output_sorted (resp : Response) (symbol : String)
    (logs : List LogMsg) (recs : List PriceRec)
    (h : fetch_history_for_symbol resp symbol = (logs, Except.ok recs)) :
    List.Sorted recLe recs := by
  have hs := fetch_result_shape resp symbol
  rw [h] at hs
  rcases hs with h1 | ⟨e, h2⟩ | ⟨rs, h3⟩
  · simp only [Except.ok.injEq] at h1
    subst h1
    exact List.sorted_nil
  · simp at h2
  · simp only [Except.ok.injEq] at h3
    subst h3
    exact List.sorted_insertionSort recLe rs

/-- Witness for C2: a payload whose dates arrive descending comes back
ascending. -/
theorem fetch_output_sorted_witness :
    List.Sorted recLe
      [⟨⟨2024, 1, 2⟩, "ABC", 10, 12, 9, 11, 1000⟩,
       ⟨⟨2024, 1, 3⟩, "ABC", 1, 2, mkRat 1 2, mkRat 3 2, 10⟩] :=
  fetch_output_sorted ⟨200, some unorderedPayload⟩ "ABC" []
    [⟨⟨2024, 1, 2⟩, "ABC", 10, 12, 9, 11, 1000⟩,
     ⟨⟨2024, 1, 3⟩, "ABC", 1, 2, mkRat 1 2, mkRat 3 2, 10⟩] (by rfl)

/-- C5: on an HTTP 429 response the fetcher prints the rate-limit warning and
returns the empty list without raising, whatever the body holds. -/
theorem fetch_429_returns_empty (resp : Response) (symbol : String)
    (h : resp.status = 429) :
    fetch_history_for_symbol resp symbol = ([LogMsg.warn429 symbol], .ok []) := by
  unfold fetch_history_for_symbol
  rw [if_pos h]

/-- Witness for C5 at a concrete 429 response. -/
theorem fetch_429_returns_empty_witness :
    fetch_history_for_symbol ⟨429, none⟩ "NVDA"
      = ([LogMsg.warn429 "NVDA"], .ok []) :=
  fetch_429_returns_empty ⟨429, none⟩ "NVDA" rfl

/-- Counterexample to C1 as stated: on a success status with a malformed JSON
body, `fetch_history_for_symbol` raises `json.JSONDecodeError` (the
`resp.json()` call on line 36 is not guarded), instead of returning the
empty sequence. -/
theorem fetch_malformed_json_raises :
    (fetch_history_for_symbol ⟨200, none⟩ "ABC").2
        = Except.error PyErr.jsonDecodeError
      ∧ ((fetch_history_for_symbol ⟨200, none⟩ "ABC").2).toOption = none :=
  ⟨rfl, rfl⟩

/-- C1 as amended: the fetcher returns the empty sequence without raising on
the three handled failures — HTTP 429, any other non-success status, and a
JSON-object payload lacking the "Time Series (Daily)" key — but it does
raise on a malformed JSON body, a non-object payload, a malformed date
string, or a non-numeric field value. -/
theorem fetch_recoverable_failures_empty (resp : Response) (symbol : String)
    (h : resp.status = 429 ∨ respOk resp = false
      ∨ ∃ es, resp.body = some (Json.obj es)
          ∧ es.all (fun e => !(e.fst == "Time Series (Daily)")) = true) :
    (fetch_history_for_symbol resp symbol).2 = .ok [] := by
  rcases h with h | h | ⟨es, hbody, hall⟩
  · unfold fetch_history_for_symbol
    rw [if_pos h]
  · by_cases h429 : resp.status = 429
    · unfold fetch_history_for_symbol
      rw [if_pos h429]
    · unfold fetch_history_for_symbol
      rw [if_neg h429, h]
      simp
  · by_cases h429 : resp.status = 429
    · unfold fetch_history_for_symbol
      rw [if_pos h429]
    · by_cases hok : respOk resp
      · have hany : es.any (fun e => e.fst == "Time Series (Daily)") = false := by
          rw [List.any_eq_false]
          intro e he
          have := (List.all_eq_true.mp hall) e he
          simpa using this
        unfold fetch_history_for_symbol
        rw [if_neg h429, hok, hbody]
        simp [pyContains, hany]
      · unfold fetch_history_for_symbol
        rw [if_neg h429]
        simp [Bool.of_not_eq_true hok]

/-- Witness for the amended C1 at a concrete HTTP 500 response. -/
theorem fetch_recoverable_failures_empty_witness :
    (fetch_history_for_symbol ⟨500, none⟩ "ABC").2 = .ok [] :=
  fetch_recoverable_failures_empty ⟨500, none⟩ "ABC" (Or.inr (Or.inl rfl))

/-! ## Claim theorems: end-to-end scenario and the writer -/

/-- C6: the spec's end-to-end scenario: the single-entry payload for symbol
"ABC" yields exactly the record (2024-01-02, "ABC", 10.0, 12.0, 9.0, 11.0,
1000) with prices coerced to numbers and the volume to an integer, and
running the writer twice with that record (starting from the empty table,
all database calls succeeding) leaves exactly one stored row with those
values. -/
theorem end_to_end_scenario :
    fetch_history_for_symbol ⟨200, some scenarioPayload⟩ "ABC"
        = ([], .ok [scenarioRec])
      ∧ (insert_history_into_snowflake envOk [scenarioRec]
          (insert_history_into_snowflake envOk [scenarioRec] []).table).table
        = [scenarioRec] :=
  ⟨rfl, rfl⟩

/-- C8: with an empty record list the writer is a no-op: it returns before
connecting, issues no statement, changes no table state, raises nothing,
and opens no resource (lines 80–81). -/
theorem upsert_empty_noop (env : DbEnv) (t : Table) :
    insert_history_into_snowflake env [] t
      = { trace := [], table := t, committed := false, err := none,
          connOpened := false, cursorClosed := false, connClosed := false } :=
  rfl

/-- C9's failing input: when `ctx.cursor()` raises (a non-empty batch, all
other calls fine), the `finally` block evaluates `cs.close()` with `cs`
never assigned, so the call raises `UnboundLocalError` and `ctx.close()` is
skipped: the run ends with the connection opened but never closed, nothing
committed — contradicting the claim that both resources are released on
every exit path. -/
theorem cursor_failure_leaks_connection :
    insert_history_into_snowflake envCursorFail [scenarioRec] []
      = { trace := [DbOp.connect], table := [], committed := false,
          err := some PyErr.nameError,
          connOpened := true, cursorClosed := false, connClosed := false } :=
  rfl

end Backfill
